import Mathlib

/-!
Shallow embedding of `src/cmu_cv/panorama/src/keypointDetect.py`, a DoG
(Difference-of-Gaussians) scale-space keypoint detector.

Modelling conventions:
* A single-channel float image is an `Img`: a height, a width and a total
  pixel function `Nat → Nat → ℚ` (row `y`, column `x`).  numpy float64
  arithmetic is modelled exactly over `ℚ` (the spec's "within floating-point
  tolerance" reading).
* A numpy 3-D array of shape `(H, W, L)` (a pyramid) is a `Pyr`; uniformity
  of the level shapes is intrinsic to the type, exactly as for a numpy array.
* `cv2.GaussianBlur` and `cv2.Sobel` are external library collaborators, not
  code of this repository; they are passed in as opaque function parameters
  (`BlurOp`, `SobOp`) so that every theorem quantifies over their behaviour.
  `cv2.GaussianBlur(im, (size,size), sigma)` always returns an image of the
  shape of its input, which the embedding reflects by keeping `H`/`W`.
* `np.stack([])` and `np.concatenate([])` raise `ValueError`; fallible
  functions therefore return `Except DetErr _` with the corresponding
  error value.
* `scipy.ndimage.maximum_filter`/`minimum_filter` with `size=3` use the
  default boundary mode `reflect`, under which an out-of-range offset of
  distance one maps back onto the edge sample itself; `reflIdx` implements
  the reflect rule for arbitrary offsets.
-/

/-- A single-channel image: pixel `(y, x)` has value `pix y x`. -/
structure Img where
  H : Nat
  W : Nat
  pix : Nat → Nat → ℚ

/-- A numpy 3-D array of shape `(H, W, L)`: a stack of `L` same-shaped
images, `pix y x l` being pixel `(y, x)` of level `l`. -/
structure Pyr where
  H : Nat
  W : Nat
  L : Nat
  pix : Nat → Nat → Nat → ℚ

/-- A detected keypoint `(x, y, level)`: `x` is the column, `y` the row (in
the original image frame), `l` the DoG level index. -/
structure KP where
  x : Nat
  y : Nat
  l : Nat
deriving DecidableEq, Repr

/-- Runtime errors of the reference code: `stackEmpty` models the
`ValueError` of `np.stack([])`, `emptyConcat` the `ValueError` of
`np.concatenate([])`. -/
inductive DetErr where
  | stackEmpty
  | emptyConcat
deriving DecidableEq, Repr

/-- The type of the external `cv2.GaussianBlur` collaborator: it receives
the standard deviation, the (single-axis) kernel size passed as
`(size, size)`, and the image's pixel function, and returns the blurred
pixel function (shape is preserved by `cv2.GaussianBlur`). -/
def BlurOp : Type := ℚ → ℤ → (Nat → Nat → ℚ) → Nat → Nat → ℚ

/-- The type of one directional `cv2.Sobel` derivative operator
(shape-preserving, like `cv2.Sobel` with `ddepth = -1`). -/
def SobOp : Type := (Nat → Nat → ℚ) → Nat → Nat → ℚ

/-- `im.max()` of a numpy array, as folded over all pixels
(row-major); on the degenerate empty image the fold base `pix 0 0` is
returned, a case on which no claim depends. -/
def imgMax (im : Img) : ℚ :=
  ((List.range im.H).flatMap fun y =>
    (List.range im.W).map fun x => im.pix y x).foldr max (im.pix 0 0)

/-- Lines 20–21 of `keypointDetect.py`: if `im.max() > 10`, rescale the
image by `1/255`.  (The line-18 colour-to-grayscale conversion is outside
the model: `Img` is single-channel by type, matching the spec's scope.) -/
def normalizeIm (im : Img) : Img :=
  if 10 < imgMax im then { im with pix := fun y x => im.pix y x / 255 } else im

/-- Line 26 of `keypointDetect.py`:
`size = int(np.floor(3*sigma_*2) + 1)` — the Gaussian kernel width. -/
def kernelSize (sigma : ℚ) : ℤ :=
  ⌊3 * sigma * 2⌋ + 1

/-- Lines 5–31 of `keypointDetect.py` (`createGaussianPyramid`): normalize
the image, then blur it once per level index `i` of `levels` with
`sigma_ = sigma0 * k ** i` and kernel size `kernelSize sigma_`, and stack
the results.  `np.stack` of an empty list raises, hence the
`stackEmpty` error for an empty `levels`. -/
def createGaussianPyramid (blur : BlurOp) (im : Img) (sigma0 k : ℚ)
    (levels : List ℤ) : Except DetErr Pyr :=
  let nim := normalizeIm im
  if levels.isEmpty then .error .stackEmpty
  else .ok
    { H := nim.H, W := nim.W, L := levels.length,
      pix := fun y x i =>
        let sigma := sigma0 * k ^ levels.getD i 0
        blur sigma (kernelSize sigma) nim.pix y x }

/-- Lines 41–60 of `keypointDetect.py` (`createDoGPyramid`): DoG level `i`
is `gaussian_pyramid[:,:,i+1] - gaussian_pyramid[:,:,i]` for
`i in range(len(levels)-1)`; the second output is
`DoG_levels = range(len(levels)-1)` (as written in the code — not the
`levels[1:]` of the docstring).  `np.stack` of an empty list raises, hence
the `stackEmpty` error when `len(levels) - 1 = 0`. -/
def createDoGPyramid (gp : Pyr) (levels : List ℤ) :
    Except DetErr (Pyr × List ℤ) :=
  if levels.length ≤ 1 then .error .stackEmpty
  else .ok
    ({ H := gp.H, W := gp.W, L := levels.length - 1,
       pix := fun y x i => gp.pix y x (i + 1) - gp.pix y x i },
     (List.range (levels.length - 1)).map Int.ofNat)

/-- The 2×2 Hessian determinant `det = dxx*dyy - dxy**2` (line 87). -/
def hessianDet (dxx dyy dxy : ℚ) : ℚ :=
  dxx * dyy - dxy ^ 2

/-- Line 88 of `keypointDetect.py`: `det[det==0.] = 10**(-10)` — a
determinant that is exactly zero is replaced by `1e-10` before dividing. -/
def safeDet (d : ℚ) : ℚ :=
  if d = 0 then 1 / 10 ^ 10 else d

/-- The 2-D slice `DoG_pyramid[:,:,l]`. -/
def levelSlice (dog : Pyr) (l : Nat) : Nat → Nat → ℚ :=
  fun y x => dog.pix y x l

/-- `dxx = Sobel(Sobel(img, dx=1), dx=1)` for DoG level `l` (lines 78, 82). -/
def hessXX (sX : SobOp) (dog : Pyr) (l : Nat) : Nat → Nat → ℚ :=
  sX (sX (levelSlice dog l))

/-- `dxy = Sobel(Sobel(img, dx=1), dy=1)` for DoG level `l` (lines 78, 83). -/
def hessXY (sX sY : SobOp) (dog : Pyr) (l : Nat) : Nat → Nat → ℚ :=
  sY (sX (levelSlice dog l))

/-- `dyy = Sobel(Sobel(img, dy=1), dy=1)` for DoG level `l` (lines 79, 84). -/
def hessYY (sY : SobOp) (dog : Pyr) (l : Nat) : Nat → Nat → ℚ :=
  sY (sY (levelSlice dog l))

/-- Lines 62–91 of `keypointDetect.py` (`computePrincipalCurvature`): for
every level, `R = (dxx + dyy)**2 / det` with the zero determinants first
replaced by `1e-10`; the output array is allocated as
`np.zeros(DoG_pyramid.shape)` and hence has the shape of the input. -/
def computePrincipalCurvature (sX sY : SobOp) (dog : Pyr) : Pyr :=
  { H := dog.H, W := dog.W, L := dog.L,
    pix := fun y x l =>
      let dxx := hessXX sX dog l y x
      let dxy := hessXY sX sY dog l y x
      let dyy := hessYY sY dog l y x
      (dxx + dyy) ^ 2 / safeDet (hessianDet dxx dyy dxy) }

/-- The `reflect` boundary rule of `scipy.ndimage` filters on an axis of
length `n`: `(d c b a | a b c d | d c b a)` — offset `-1` maps to index
`0`, offset `n` maps to index `n-1`. -/
def reflIdx (n : Nat) (i : ℤ) : Nat :=
  (if i < 0 then -i - 1 else if (n : ℤ) ≤ i then 2 * (n : ℤ) - 1 - i else i).toNat

/-- The nine offsets of a centred 3×3 window. -/
def nbhOffsets : List (ℤ × ℤ) :=
  [(-1, -1), (-1, 0), (-1, 1), (0, -1), (0, 0), (0, 1), (1, -1), (1, 0), (1, 1)]

/-- `scipy.ndimage.maximum_filter(f, size=3)` on an `h × w` array, with the
default `reflect` boundary mode: the maximum over the 3×3 window around
`(y, x)`.  The fold base is the centre sample, which the window itself also
contains, so the fold value is exactly the window maximum. -/
def maxFilter3 (h w : Nat) (f : Nat → Nat → ℚ) (y x : Nat) : ℚ :=
  (nbhOffsets.map fun d =>
    f (reflIdx h ((y : ℤ) + d.1)) (reflIdx w ((x : ℤ) + d.2))).foldr max (f y x)

/-- `scipy.ndimage.minimum_filter(f, size=3)` on an `h × w` array, with the
default `reflect` boundary mode. -/
def minFilter3 (h w : Nat) (f : Nat → Nat → ℚ) (y x : Nat) : ℚ :=
  (nbhOffsets.map fun d =>
    f (reflIdx h ((y : ℤ) + d.1)) (reflIdx w ((x : ℤ) + d.2))).foldr min (f y x)

/-- Lines 115–129 of `keypointDetect.py`: whether interior-region pixel
`(y0, x0)` of DoG level `l` is a retained extremum.  `region` is the
interior slice `DoG_pyramid[1:imH-1, 1:imW-1, l]`; the spatial max/min
filters run over that slice, and the scale max/min filters run over the
pixelwise max/min of the two adjacent levels' interior slices; the final
conjunct is the contrast test `np.abs(region) >= th_contrast`. -/
def isExtremaAt (dog : Pyr) (th : ℚ) (l y0 x0 : Nat) : Bool :=
  let h := dog.H - 2
  let w := dog.W - 2
  let region := fun y x => dog.pix (y + 1) (x + 1) l
  let below := fun y x => dog.pix (y + 1) (x + 1) (l - 1)
  let above := fun y x => dog.pix (y + 1) (x + 1) (l + 1)
  let spaceMax := maxFilter3 h w region y0 x0
  let spaceMin := minFilter3 h w region y0 x0
  let scaleMax := maxFilter3 h w (fun y x => max (below y x) (above y x)) y0 x0
  let scaleMin := minFilter3 h w (fun y x => min (below y x) (above y x)) y0 x0
  let v := region y0 x0
  (decide (max spaceMax scaleMax ≤ v) || decide (v ≤ min spaceMin scaleMin)) &&
    decide (th ≤ |v|)

/-- Lines 127–136 of `keypointDetect.py`: the keypoint batch of DoG level
`l` — `np.where(is_extrema)` walks the interior region in row-major order
(`y0` outer, `x0` inner), each hit is shifted by `+1` back to the original
frame and emitted as `(x, y, l)` after the column swap. -/
def emitLevel (dog : Pyr) (th : ℚ) (l : Nat) : List KP :=
  (List.range (dog.H - 2)).flatMap fun y0 =>
    (List.range (dog.W - 2)).filterMap fun x0 =>
      if isExtremaAt dog th l y0 x0 then some ⟨x0 + 1, y0 + 1, l⟩ else none

/-- Lines 93–137 of `keypointDetect.py` (`getLocalExtrema`): levels
`l in range(1, levels-1)` each contribute a batch; `np.concatenate(res)`
raises when `res` is the empty list, i.e. exactly when the DoG pyramid has
at most 2 levels, hence the `emptyConcat` error.  The
`principal_curvature` argument and the `th_r` threshold are received but
never used: the curvature-filter line (130) is commented out in the
source. -/
def getLocalExtrema (dog : Pyr) (dogLevels : List ℤ) (pc : Pyr)
    (th_contrast th_r : ℚ) : Except DetErr (List KP) :=
  if dog.L ≤ 2 then .error .emptyConcat
  else .ok ((List.range' 1 (dog.L - 2)).flatMap (emitLevel dog th_contrast))

/-- Lines 140–166 of `keypointDetect.py` (`DoGdetector`): the pipeline
composes the four stages and returns `(locsDoG, gauss_pyramid)`. -/
def DoGdetector (blur : BlurOp) (sX sY : SobOp) (im : Img) (sigma0 k : ℚ)
    (levels : List ℤ) (th_contrast th_r : ℚ) :
    Except DetErr (List KP × Pyr) := do
  let gp ← createGaussianPyramid blur im sigma0 k levels
  let (dog, dogLevels) ← createDoGPyramid gp levels
  let pc := computePrincipalCurvature sX sY dog
  let locs ← getLocalExtrema dog dogLevels pc th_contrast th_r
  return (locs, gp)

/-! ### Concrete fixtures used by counterexamples and witnesses -/

/-- The identity stand-in for the external blur collaborator. -/
def idBlur : BlurOp := fun _ _ pix => pix

/-- The identity stand-in for the external Sobel collaborator. -/
def idSob : SobOp := fun pix => pix

/-- A blur stand-in that reports, as every output pixel, the kernel size it
was handed — used to observe the width the pipeline passes to the blur. -/
def probeBlur : BlurOp := fun _ size _ _ _ => (size : ℚ)

/-- A concrete 4×4 constant image. -/
def imEx : Img := { H := 4, W := 4, pix := fun _ _ => 1 }

/-- A concrete one-level pyramid (as produced by `levels = [0]`). -/
def pyrOne : Pyr := { H := 2, W := 2, L := 1, pix := fun _ _ _ => 0 }

/-- A concrete two-level pyramid. -/
def gp2 : Pyr := { H := 2, W := 2, L := 2, pix := fun _ _ i => (i : ℚ) }

/-- A concrete three-level pyramid. -/
def pyr3 : Pyr := { H := 2, W := 2, L := 3, pix := fun _ _ _ => 0 }

/-- A concrete 4×4, 3-level DoG pyramid whose middle level carries the
value 5 at interior pixel `(y, x) = (1, 1)` and the larger value 10 at the
border pixel `(y, x) = (0, 1)` right above it. -/
def dogEx : Pyr :=
  { H := 4, W := 4, L := 3,
    pix := fun y x l =>
      if l = 1 ∧ y = 1 ∧ x = 1 then 5
      else if l = 1 ∧ y = 0 ∧ x = 1 then 10
      else 0 }

/-- A concrete all-zero 4×4, 3-level pyramid (used as an inert
`principal_curvature` argument). -/
def zeroPyr : Pyr := { H := 4, W := 4, L := 3, pix := fun _ _ _ => 0 }

/-! ### Helper lemmas -/

/-- If `f` succeeds only where `g` succeeds with the same value, then
`filterMap f` is a sublist of `filterMap g` on every list. -/
theorem filterMap_sublist_of_imp {α β : Type} (f g : α → Option β)
    (h : ∀ a b, f a = some b → g a = some b) :
    ∀ xs : List α, (xs.filterMap f).Sublist (xs.filterMap g)
  | [] => by simp
  | a :: xs => by
    rw [List.filterMap_cons, List.filterMap_cons]
    cases hf : f a with
    | none =>
      cases g a with
      | none => exact filterMap_sublist_of_imp f g h xs
      | some c => exact (filterMap_sublist_of_imp f g h xs).cons c
    | some b =>
      rw [h a b hf]
      exact (filterMap_sublist_of_imp f g h xs).cons₂ b

/-- `flatMap` is monotone w.r.t. pointwise sublists. -/
theorem flatMap_sublist_of_sublist {α β : Type} (f g : α → List β)
    (h : ∀ a, (f a).Sublist (g a)) :
    ∀ xs : List α, (xs.flatMap f).Sublist (xs.flatMap g)
  | [] => by simp
  | a :: xs => by
    rw [List.flatMap_cons, List.flatMap_cons]
    exact (h a).append (flatMap_sublist_of_sublist f g h xs)

/-- Raising the contrast threshold only removes retained extrema. -/
theorem isExtremaAt_mono (dog : Pyr) (th1 th2 : ℚ) (hth : th1 ≤ th2)
    (l y0 x0 : Nat) (h : isExtremaAt dog th2 l y0 x0 = true) :
    isExtremaAt dog th1 l y0 x0 = true := by
  simp only [isExtremaAt, Bool.and_eq_true, Bool.or_eq_true, decide_eq_true_eq] at h ⊢
  exact ⟨h.1, le_trans hth h.2⟩

/-- Per-level keypoint batches shrink as the contrast threshold grows. -/
theorem emitLevel_sublist (dog : Pyr) (th1 th2 : ℚ) (hth : th1 ≤ th2) (l : Nat) :
    (emitLevel dog th2 l).Sublist (emitLevel dog th1 l) := by
  unfold emitLevel
  refine flatMap_sublist_of_sublist _ _ (fun y0 => ?_) _
  refine filterMap_sublist_of_imp _ _ (fun x0 kp hx => ?_) _
  split at hx
  next hext => rw [if_pos (isExtremaAt_mono dog th1 th2 hth l y0 x0 hext)]; exact hx
  next => exact absurd hx (by simp)

/-! ### Claim theorems -/

/-- Claim C3: the keypoint list returned by `getLocalExtrema`, and the full
result of `DoGdetector`, are identical for any two values of `th_r` with
all other inputs fixed — the `th_r` curvature filter (line 130) is
commented out, so the threshold is never applied. -/
theorem getLocalExtrema_th_r_irrelevant_c3 (dog : Pyr) (dogLevels : List ℤ)
    (pc : Pyr) (th : ℚ) (a b : ℚ) (blur : BlurOp) (sX sY : SobOp) (im : Img)
    (sigma0 k : ℚ) (levels : List ℤ) :
    getLocalExtrema dog dogLevels pc th a = getLocalExtrema dog dogLevels pc th b ∧
    DoGdetector blur sX sY im sigma0 k levels th a =
      DoGdetector blur sX sY im sigma0 k levels th b :=
  ⟨rfl, rfl⟩

/-- Claim C4 (behaviour of the code at the claimed failing input): for a
`levels` sequence of exactly 3 entries the pipeline does not raise an
InvalidParameter error at entry — it runs the Gaussian and DoG stages and
then fails inside `getLocalExtrema`, where `range(1, levels-1)` is empty
and `np.concatenate([])` raises, for every image and every remaining
parameter choice. -/
theorem DoGdetector_three_levels_c4 (blur : BlurOp) (sX sY : SobOp)
    (im : Img) (sigma0 k th_contrast th_r : ℚ) :
    DoGdetector blur sX sY im sigma0 k [-1, 0, 1] th_contrast th_r =
      .error .emptyConcat :=
  rfl

/-- Claim C9: `computePrincipalCurvature` is total: the output has the
shape of the input DoG pyramid, the divisor — the Hessian determinant with
exact zeros replaced by the positive epsilon `1e-10` — is never zero, and
every output pixel equals `(dxx + dyy)^2` divided by that divisor. -/
theorem computePrincipalCurvature_total_c9 (sX sY : SobOp) (dog : Pyr)
    (y x l : Nat) :
    (computePrincipalCurvature sX sY dog).H = dog.H ∧
    (computePrincipalCurvature sX sY dog).W = dog.W ∧
    (computePrincipalCurvature sX sY dog).L = dog.L ∧
    safeDet (hessianDet (hessXX sX dog l y x) (hessYY sY dog l y x)
      (hessXY sX sY dog l y x)) ≠ 0 ∧
    (computePrincipalCurvature sX sY dog).pix y x l =
      (hessXX sX dog l y x + hessYY sY dog l y x) ^ 2 /
        safeDet (hessianDet (hessXX sX dog l y x) (hessYY sY dog l y x)
          (hessXY sX sY dog l y x)) := by
  refine ⟨rfl, rfl, rfl, ?_, rfl⟩
  unfold safeDet
  split
  · norm_num
  next h => exact h

/-- Claim C7 (behaviour of the code at the failing input): the second
output of `createDoGPyramid` is `range(len(levels)-1)` — independent of
the level values — and for `levels = [0, 1, 2]` this is `[0, 1]`, which is
not `levels[1:] = [1, 2]` as the docstring and the spec state. -/
theorem createDoGPyramid_levels_c7 :
    (∀ gp : Pyr, (createDoGPyramid gp [0, 1, 2]).map Prod.snd = .ok [0, 1]) ∧
    ([0, 1] : List ℤ) ≠ List.drop 1 [0, 1, 2] :=
  ⟨fun _ => rfl, by decide⟩

/-- Claim C1 (amended): for every Gaussian pyramid and every `levels`
sequence with `L = len(levels) ≥ 2`, `createDoGPyramid` returns a DoG
pyramid with exactly `L - 1` levels, of the same height and width as the
Gaussian pyramid, with `DoG[j] = Gaussian[j+1] - Gaussian[j]` pixelwise
for every `j < L - 1`.  (For `L ≤ 1` the code instead raises in
`np.stack([])`, see the counterexample.) -/
theorem createDoGPyramid_shape_c1 (gp : Pyr) (levels : List ℤ)
    (h2 : 2 ≤ levels.length) (hL : gp.L = levels.length) :
    ∃ dog dogLevels, createDoGPyramid gp levels = .ok (dog, dogLevels) ∧
      dog.L = levels.length - 1 ∧ dog.H = gp.H ∧ dog.W = gp.W ∧
      ∀ y x j, j < levels.length - 1 →
        dog.pix y x j = gp.pix y x (j + 1) - gp.pix y x j := by
  unfold createDoGPyramid
  rw [if_neg (by omega : ¬ levels.length ≤ 1)]
  exact ⟨_, _, rfl, rfl, rfl, rfl, fun _ _ _ _ => rfl⟩

/-- Claim C1 counterexample: a one-level Gaussian pyramid (built from
`levels = [0]`, so `L = len(levels) = 1`) makes `createDoGPyramid` raise —
`np.stack` of the empty difference list — instead of returning an
`L - 1 = 0` level pyramid. -/
theorem createDoGPyramid_one_level_c1_cx :
    createDoGPyramid pyrOne [0] = .error .stackEmpty :=
  rfl

/-- Claim C1 witness: the amended claim applied to a concrete two-level
pyramid with `levels = [0, 1]`. -/
theorem createDoGPyramid_shape_c1_witness :
    (2 ≤ ([0, 1] : List ℤ).length ∧ gp2.L = ([0, 1] : List ℤ).length) ∧
    (∃ dog dogLevels, createDoGPyramid gp2 [0, 1] = .ok (dog, dogLevels) ∧
      dog.L = ([0, 1] : List ℤ).length - 1 ∧ dog.H = gp2.H ∧ dog.W = gp2.W ∧
      ∀ y x j, j < ([0, 1] : List ℤ).length - 1 →
        dog.pix y x j = gp2.pix y x (j + 1) - gp2.pix y x j) :=
  ⟨⟨by decide, rfl⟩, createDoGPyramid_shape_c1 gp2 [0, 1] (by decide) rfl⟩

/-- Claim C8 (amended): level `i` of the Gaussian pyramid is the blur of
the (normalized) input image with standard deviation
`sigma_i = sigma0 * k ** levels[i]` and kernel width
`floor(6 * sigma_i) + 1`; no rounding to an odd width is performed (the
counterexample shows an even width reaching the blur). -/
theorem createGaussianPyramid_kernel_c8 (blur : BlurOp) (im : Img)
    (sigma0 k : ℚ) (levels : List ℤ) (hne : levels ≠ []) (y x i : Nat) :
    (createGaussianPyramid blur im sigma0 k levels).map (fun p => p.pix y x i) =
      .ok (blur (sigma0 * k ^ levels.getD i 0)
        (kernelSize (sigma0 * k ^ levels.getD i 0)) (normalizeIm im).pix y x) := by
  unfold createGaussianPyramid
  rw [if_neg (by simp [hne])]
  rfl

/-- Claim C8 counterexample: with `sigma0 = 1/2 > 0`, `k = 1 > 0` and
level index `0`, the kernel width handed to the blur is
`floor(6 * 1/2) + 1 = 4`, which is even — observed through a blur stand-in
that reports the width it receives as every output pixel. -/
theorem createGaussianPyramid_even_kernel_c8_cx :
    (createGaussianPyramid probeBlur imEx (1/2) 1 [0]).map (fun p => p.pix 0 0 0) =
      .ok 4 ∧
    kernelSize ((1:ℚ)/2 * 1 ^ ((0:ℤ))) = 4 ∧ (4:ℤ) % 2 = 0 := by
  refine ⟨?_, ?_, by decide⟩
  · with_unfolding_all rfl
  · with_unfolding_all rfl

/-- Claim C8 witness: the amended claim applied at a concrete input. -/
theorem createGaussianPyramid_kernel_c8_witness :
    (([0] : List ℤ) ≠ []) ∧
    (createGaussianPyramid idBlur imEx 1 1 [0]).map (fun p => p.pix 0 0 0) =
      .ok (idBlur ((1:ℚ) * 1 ^ (([0] : List ℤ).getD 0 0))
        (kernelSize ((1:ℚ) * 1 ^ (([0] : List ℤ).getD 0 0)))
        (normalizeIm imEx).pix 0 0) :=
  ⟨by decide, createGaussianPyramid_kernel_c8 idBlur imEx 1 1 [0] (by decide) 0 0 0⟩

/-- Claim C5 (amended): the pipeline performs no validation of `sigma0` or
`k`: with `sigma0 = 0 ≤ 0` (and `k = 1`, default levels) `DoGdetector`
runs every stage and returns a result for every image and every blur and
Sobel collaborator — no InvalidParameter error is raised at entry (no such
check exists in the code). -/
theorem DoGdetector_no_validation_c5 (blur : BlurOp) (sX sY : SobOp)
    (im : Img) (th_contrast th_r : ℚ) :
    ∃ res, DoGdetector blur sX sY im 0 1 [-1, 0, 1, 2, 3, 4] th_contrast th_r =
      .ok res :=
  ⟨_, rfl⟩

/-- Claim C5 counterexample: a concrete run with `sigma0 = 0 ≤ 0` and
default thresholds completes and returns a value — the pipeline does not
reject the call. -/
theorem DoGdetector_sigma_zero_c5_cx :
    (DoGdetector idBlur idSob idSob imEx 0 1 [-1, 0, 1, 2, 3, 4]
      (3/100) 12).isOk = true := by
  with_unfolding_all rfl

/-- Claim C2: every keypoint `(x, y, l)` emitted by `getLocalExtrema` on a
DoG pyramid of height `H`, width `W` and `L - 1` levels lies strictly
inside the 1-pixel image border (`1 ≤ x ≤ W - 2`, `1 ≤ y ≤ H - 2`), has a
DoG magnitude of at least `th_contrast`, and carries a level index in the
interior range `1 .. (L-1) - 2` (that is, `1 .. L - 3` in Gaussian-level
count). -/
theorem getLocalExtrema_bounds_c2 (dog : Pyr) (dogLevels : List ℤ) (pc : Pyr)
    (th_contrast th_r : ℚ) (kps : List KP)
    (hok : getLocalExtrema dog dogLevels pc th_contrast th_r = .ok kps)
    (kp : KP) (hmem : kp ∈ kps) :
    1 ≤ kp.x ∧ kp.x ≤ dog.W - 2 ∧ 1 ≤ kp.y ∧ kp.y ≤ dog.H - 2 ∧
    th_contrast ≤ |dog.pix kp.y kp.x kp.l| ∧ 1 ≤ kp.l ∧ kp.l ≤ dog.L - 2 := by
  unfold getLocalExtrema at hok
  split at hok
  · exact absurd hok (by simp)
  injection hok with hok
  subst hok
  obtain ⟨l, hl, hkp⟩ := List.mem_flatMap.1 hmem
  rw [List.mem_range'] at hl
  unfold emitLevel at hkp
  obtain ⟨y0, hy0, hx⟩ := List.mem_flatMap.1 hkp
  rw [List.mem_range] at hy0
  obtain ⟨x0, hx0, hsome⟩ := List.mem_filterMap.1 hx
  rw [List.mem_range] at hx0
  split at hsome
  case isFalse => exact absurd hsome (by simp)
  case isTrue hext =>
    injection hsome with hsome
    subst hsome
    have habs : th_contrast ≤ |dog.pix (y0 + 1) (x0 + 1) l| := by
      simp only [isExtremaAt, Bool.and_eq_true, decide_eq_true_eq] at hext
      exact hext.2
    dsimp only
    exact ⟨by omega, by omega, by omega, by omega, habs, by omega, by omega⟩

set_option maxRecDepth 4000 in
/-- Claim C2 witness: the theorem applied to the concrete pyramid `dogEx`,
whose output is the single keypoint `(1, 1, 1)`. -/
theorem getLocalExtrema_bounds_c2_witness :
    getLocalExtrema dogEx [0, 1, 2] zeroPyr (3/100) 12 = .ok [⟨1, 1, 1⟩] ∧
    (1 ≤ (1 : Nat) ∧ 1 ≤ dogEx.W - 2 ∧ 1 ≤ (1 : Nat) ∧ 1 ≤ dogEx.H - 2 ∧
      (3:ℚ)/100 ≤ |dogEx.pix 1 1 1| ∧ 1 ≤ (1 : Nat) ∧ 1 ≤ dogEx.L - 2) := by
  have hok : getLocalExtrema dogEx [0, 1, 2] zeroPyr (3/100) 12 = .ok [⟨1, 1, 1⟩] := by
    with_unfolding_all rfl
  exact ⟨hok, getLocalExtrema_bounds_c2 dogEx [0, 1, 2] zeroPyr (3/100) 12
    [⟨1, 1, 1⟩] hok ⟨1, 1, 1⟩ (List.mem_singleton.2 rfl)⟩

/-- Claim C6: for a fixed DoG pyramid and fixed remaining parameters, if
`th_contrast1 ≤ th_contrast2` then the keypoints detected with the larger
threshold form a sublist — hence a subset, and no more numerous a list —
of those detected with the smaller one. -/
theorem getLocalExtrema_threshold_mono_c6 (dog : Pyr) (dogLevels : List ℤ)
    (pc : Pyr) (th1 th2 th_r : ℚ) (hth : th1 ≤ th2) (kps2 : List KP)
    (h2 : getLocalExtrema dog dogLevels pc th2 th_r = .ok kps2) :
    ∃ kps1, getLocalExtrema dog dogLevels pc th1 th_r = .ok kps1 ∧
      kps2.Sublist kps1 ∧ (∀ kp ∈ kps2, kp ∈ kps1) ∧
      kps2.length ≤ kps1.length := by
  unfold getLocalExtrema at h2 ⊢
  split at h2
  · exact absurd h2 (by simp)
  next hL =>
    rw [if_neg hL]
    injection h2 with h2
    subst h2
    have hsub := flatMap_sublist_of_sublist _ _
      (fun l => emitLevel_sublist dog th1 th2 hth l) (List.range' 1 (dog.L - 2))
    exact ⟨_, rfl, hsub, fun kp hk => hsub.subset hk, hsub.length_le⟩

set_option maxRecDepth 4000 in
/-- Claim C6 witness: the theorem applied to the concrete pyramid `dogEx`
with thresholds `1/100 ≤ 3/100`. -/
theorem getLocalExtrema_threshold_mono_c6_witness :
    ((1:ℚ)/100 ≤ 3/100 ∧
      getLocalExtrema dogEx [0, 1, 2] zeroPyr (3/100) 12 = .ok [⟨1, 1, 1⟩]) ∧
    (∃ kps1, getLocalExtrema dogEx [0, 1, 2] zeroPyr (1/100) 12 = .ok kps1 ∧
      List.Sublist [⟨1, 1, 1⟩] kps1 ∧
      (∀ kp ∈ ([⟨1, 1, 1⟩] : List KP), kp ∈ kps1) ∧
      ([⟨1, 1, 1⟩] : List KP).length ≤ kps1.length) := by
  have hth : (1:ℚ)/100 ≤ 3/100 := by norm_num
  have hok : getLocalExtrema dogEx [0, 1, 2] zeroPyr (3/100) 12 = .ok [⟨1, 1, 1⟩] := by
    with_unfolding_all rfl
  exact ⟨⟨hth, hok⟩, getLocalExtrema_threshold_mono_c6 dogEx [0, 1, 2] zeroPyr
    (1/100) (3/100) 12 hth [⟨1, 1, 1⟩] hok⟩

set_option maxRecDepth 4000 in
/-- Claim C10: on the concrete pyramid `dogEx`, `getLocalExtrema` emits
the keypoint `(x, y, l) = (1, 1, 1)` — a pixel in the row adjacent to the
image border — even though its DoG value `5` is strictly exceeded by the
value `10` of its 8-neighbor at the border pixel `(y, x) = (0, 1)` of the
same level: the 3×3 extremum filters run on the interior slice with
reflected boundary handling, so true border pixels are never consulted. -/
theorem getLocalExtrema_border_blind_c10 :
    getLocalExtrema dogEx [0, 1, 2] zeroPyr (3/100) 12 = .ok [⟨1, 1, 1⟩] ∧
    dogEx.pix 1 1 1 < dogEx.pix 0 1 1 := by
  constructor
  · with_unfolding_all rfl
  · show (5:ℚ) < 10
    norm_num
